import Mathlib

/-!
Verification of the procedural scene generator in
`src/ai-video-gen/src/app/page.tsx`.

The TypeScript core is embedded shallowly:

* JS strings are lists of UTF-16 code units (`List Nat`);
* JS 32-bit integer operations (`<<`, `|0`, `>>`) are modelled on `Int`
  with explicit wrapping into `[-2^31, 2^31)`;
* JS number arithmetic in the generator and the blueprint builder is exact
  on the values that actually occur (integers below `2^53` and dyadic
  rationals), so it is modelled in `ℚ`; the double constant `Math.PI` is
  the exact rational value of that double, `884279719003555 / 2^48`;
* the JS `%` operator (sign of the dividend) is `Int.tmod` on integers and
  an explicit truncated remainder on `ℚ`;
* the canvas renderer `drawScene` is modelled as the list of drawing
  commands it issues, with real-valued coordinates.
-/

namespace VideoGen

/-! ### JS 32-bit integer primitives -/

/-- Wrap an integer into the signed 32-bit range `[-2^31, 2^31)`,
as the JS `| 0` coercion (ToInt32) does. -/
def int32 (n : Int) : Int := (n + 2147483648) % 4294967296 - 2147483648

/-- JS `%` on integers: truncated remainder, sign of the dividend. -/
def jsMod (a n : Int) : Int := Int.tmod a n

/-- JS signed right shift `a >> 8`: ToInt32 then arithmetic shift,
i.e. floor division of the wrapped value by `2^8`. -/
def jsShr8 (a : Int) : Int := Int.fdiv (int32 a) 256

/-! ### Strings: code units, trim, toLowerCase -/

/-- The code points removed by JS `String.prototype.trim`
(ECMAScript WhiteSpace and LineTerminator). -/
def wsCodes : List Nat :=
  [9, 10, 11, 12, 13, 32, 160, 5760,
   8192, 8193, 8194, 8195, 8196, 8197, 8198, 8199, 8200, 8201, 8202,
   8232, 8233, 8239, 8287, 12288, 65279]

/-- Is a code unit JS whitespace? -/
def isWS (c : Nat) : Bool := c ∈ wsCodes

/-- JS `String.prototype.trim`: drop leading and trailing whitespace. -/
def trim (s : List Nat) : List Nat :=
  ((s.dropWhile isWS).reverse.dropWhile isWS).reverse

/-- Case mapping of a single code unit (ASCII range of JS `toLowerCase`). -/
def lowerChar (c : Nat) : Nat := if 65 ≤ c ∧ c ≤ 90 then c + 32 else c

/-- JS `String.prototype.toLowerCase`, code-unit-wise. -/
def toLower (s : List Nat) : List Nat := s.map lowerChar

/-- Code units of the default token `"sora"`. -/
def soraCodes : List Nat := [115, 111, 114, 97]

/-- `prompt.trim().toLowerCase() || "sora"`: the normalized prompt,
with the fixed default token substituted for an empty result. -/
def normalize (s : List Nat) : List Nat :=
  let t := toLower (trim s)
  if t = [] then soraCodes else t

/-! ### hashString -/

/-- One step of `hashString`:
`hash = (hash << 5) - hash + charCode; hash |= 0`. -/
def hashStep (h : Int) (c : Nat) : Int := int32 (int32 (h * 32) - h + c)

/-- `hashString` from the source: fold `hashStep` over the code units,
then `Math.abs` of the final 32-bit accumulator. -/
def hashString (s : List Nat) : Int := ((s.foldl hashStep 0).natAbs : Int)

/-! ### createRng: linear congruential generator -/

/-- Initial state of `createRng`: `let state = seed || 1`. -/
def rngInit (seed : Int) : Int := if seed = 0 then 1 else seed

/-- One state update of the generator:
`state = (state * 1664525 + 1013904223) % 0x100000000` with JS `%`. -/
def rngStep (s : Int) : Int := Int.tmod (s * 1664525 + 1013904223) 4294967296

/-- The generator state after `n` calls, starting from `seed`. -/
def rngState (seed : Int) : Nat → Int
  | 0 => rngInit seed
  | n + 1 => rngStep (rngState seed n)

/-- The value returned by a call, given the updated state:
`state / 0x100000000`. -/
def val (s : Int) : ℚ := (s : ℚ) / 4294967296

/-- The value returned by the `n`-th call (0-indexed) of the generator
created from `seed`. -/
def rngDraw (seed : Int) (n : Nat) : ℚ := val (rngState seed (n + 1))

/-! ### buildScene -/

/-- `clamp` from the source: `Math.min(Math.max(value, min), max)`. -/
def clamp (value lo hi : ℚ) : ℚ := min (max value lo) hi

/-- JS truncation toward zero of a rational. -/
def jsTrunc (q : ℚ) : Int := if 0 ≤ q then ⌊q⌋ else ⌈q⌉

/-- JS `%` on (finite, nonzero-divisor) numbers:
`a - n * trunc(a / n)`. -/
def jsRemQ (a n : ℚ) : ℚ := a - n * jsTrunc (a / n)

/-- The exact rational value of the double constant `Math.PI`. -/
def jsPI : ℚ := 884279719003555 / 281474976710656

/-- An `hsla(h, s%, l%, a)` color as computed by the source: integer hue,
saturation and lightness, rational alpha. -/
structure Hsla where
  h : Int
  s : Int
  l : Int
  a : ℚ
  deriving DecidableEq, Repr

/-- An `hsl(h, s%, l%)` background color stop. -/
structure Hsl where
  h : Int
  s : Int
  l : Int
  deriving DecidableEq, Repr

/-- One layer of the scene blueprint. -/
structure LayerSpec where
  color : Hsla
  radius : ℚ
  rotation : ℚ
  speed : ℚ
  variance : ℚ
  deriving DecidableEq, Repr

/-- One spark of the scene blueprint. -/
structure SparkSpec where
  angle : ℚ
  distance : ℚ
  size : ℚ
  drift : ℚ
  hueShift : ℚ
  deriving DecidableEq, Repr

/-- The scene blueprint returned by `buildScene`. The source's
`background: [string, string]` pair is the two-element stop list. -/
structure SceneBlueprint where
  layers : List LayerSpec
  sparks : List SparkSpec
  background : List Hsl
  pulse : ℚ
  distort : ℚ
  deriving DecidableEq, Repr

instance : Inhabited Hsla := ⟨⟨0, 0, 0, 0⟩⟩
instance : Inhabited LayerSpec := ⟨⟨default, 0, 0, 0, 0⟩⟩
instance : Inhabited SparkSpec := ⟨⟨0, 0, 0, 0, 0⟩⟩

/-- The per-layer hue before scaling to degrees:
`(hue + rng() * 0.25 - 0.125 + index * 0.03) % 1`. -/
def layerHue (hue r : ℚ) (index : Nat) : ℚ :=
  jsRemQ (hue + r * 0.25 - 0.125 + (index : ℚ) * 0.03) 1

/-- Build one layer from state `s`, consuming eight generator calls in
source order: hue jitter, then the saturation, lightness and alpha jitters
inside the color template literal, then radius, rotation, speed, variance.
Returns the state after the layer together with the layer. -/
def buildLayer (hue : ℚ) (index : Nat) (s : Int) : Int × LayerSpec :=
  let s1 := rngStep s
  let lh := layerHue hue (val s1) index
  let s2 := rngStep s1
  let s3 := rngStep s2
  let s4 := rngStep s3
  let s5 := rngStep s4
  let s6 := rngStep s5
  let s7 := rngStep s6
  let s8 := rngStep s7
  (s8,
   { color := { h := ⌊lh * 360⌋, s := 60 + ⌊val s2 * 30⌋,
                l := 45 + ⌊val s3 * 20⌋, a := 0.35 + val s4 * 0.35 },
     radius := 0.25 + val s5 * 0.65,
     rotation := val s6 * jsPI * 2,
     speed := 0.2 + val s7 * 0.9,
     variance := 0.2 + val s8 * 0.6 })

/-- Build `n` layers starting at `index`, threading the generator state. -/
def buildLayers (hue : ℚ) (index n : Nat) (s : Int) : Int × List LayerSpec :=
  match n with
  | 0 => (s, [])
  | m + 1 =>
    let p := buildLayer hue index s
    let rest := buildLayers hue (index + 1) m p.1
    (rest.1, p.2 :: rest.2)

/-- Build one spark from state `s`, consuming five generator calls in
source order: angle, distance, size, drift, hueShift. -/
def buildSpark (s : Int) : Int × SparkSpec :=
  let s1 := rngStep s
  let s2 := rngStep s1
  let s3 := rngStep s2
  let s4 := rngStep s3
  let s5 := rngStep s4
  (s5,
   { angle := val s1 * jsPI * 2,
     distance := 0.1 + val s2 * 0.9,
     size := 1 + val s3 * 2,
     drift := 0.5 + val s4 * 1.5,
     hueShift := (val s5 - 0.5) * 40 })

/-- Build `n` sparks, threading the generator state. -/
def buildSparks (n : Nat) (s : Int) : Int × List SparkSpec :=
  match n with
  | 0 => (s, [])
  | m + 1 =>
    let p := buildSpark s
    let rest := buildSparks m p.1
    (rest.1, p.2 :: rest.2)

/-- `buildScene` from the source, with the generator closure replaced by
explicit state threading in the exact call order of the code. -/
def buildScene (prompt : List Nat) : SceneBlueprint :=
  let baseHash := hashString (normalize prompt)
  let hue : ℚ := (jsMod baseHash 360 : ℚ) / 360
  let accent : ℚ := clamp ((jsMod (jsShr8 baseHash) 360 : ℚ) / 360) 0 1
  let background : List Hsl :=
    [{ h := ⌊hue * 360⌋, s := 68, l := 12 },
     { h := ⌊jsRemQ (hue + accent / 3) 1 * 360⌋, s := 80, l := 22 }]
  let s0 := rngInit baseHash
  let s1 := rngStep s0
  let layerCount := 5 + (⌊val s1 * 5⌋).toNat
  let pL := buildLayers hue 0 layerCount s1
  let s2 := rngStep pL.1
  let sparkCount := 120 + (⌊val s2 * 180⌋).toNat
  let pS := buildSparks sparkCount s2
  let s3 := rngStep pS.1
  let s4 := rngStep s3
  { layers := pL.2,
    sparks := pS.2,
    background := background,
    pulse := 0.4 + val s3 * 0.4,
    distort := 0.5 + val s4 * 0.9 }

/-! ### Derived views of `buildScene` used by several theorems -/

/-- The seed `buildScene` derives from a prompt. -/
def seedOf (p : List Nat) : Int := hashString (normalize p)

/-- The base hue `buildScene` derives from a prompt. -/
def hueOf (p : List Nat) : ℚ := (jsMod (seedOf p) 360 : ℚ) / 360

/-- The hue value used to build layer `i`'s color, expressed through the
generator draw that feeds it. -/
def layerHueAt (p : List Nat) (i : Nat) : ℚ :=
  layerHue (hueOf p) (rngDraw (seedOf p) (1 + 8 * i)) i

/-! ### Bounds on the hash accumulator and generator states -/

lemma int32_bounds (n : Int) :
    -2147483648 ≤ int32 n ∧ int32 n < 2147483648 := by
  unfold int32; omega

lemma hashStep_bounds (h : Int) (c : Nat) :
    -2147483648 ≤ hashStep h c ∧ hashStep h c < 2147483648 := by
  unfold hashStep; exact int32_bounds _

lemma foldl_hashStep_bounds (s : List Nat) :
    ∀ h : Int, -2147483648 ≤ h ∧ h < 2147483648 →
      -2147483648 ≤ s.foldl hashStep h ∧ s.foldl hashStep h < 2147483648 := by
  induction s with
  | nil => intro h hh; simpa using hh
  | cons c t ih => intro h _; exact ih (hashStep h c) (hashStep_bounds h c)

lemma hashString_nonneg (s : List Nat) : 0 ≤ hashString s := by
  unfold hashString; positivity

lemma hashString_le (s : List Nat) : hashString s ≤ 2147483648 := by
  unfold hashString
  have h := foldl_hashStep_bounds s 0 (by norm_num)
  omega

lemma rngStep_nonneg {s : Int} (hs : 0 ≤ s) : 0 ≤ rngStep s := by
  unfold rngStep
  rw [Int.tmod_eq_emod (by omega) (by omega)]
  omega

lemma rngStep_lt {s : Int} (hs : 0 ≤ s) : rngStep s < 4294967296 := by
  unfold rngStep
  rw [Int.tmod_eq_emod (by omega) (by omega)]
  omega

lemma rngInit_nonneg {seed : Int} (hs : 0 ≤ seed) : 0 ≤ rngInit seed := by
  unfold rngInit; split <;> omega

lemma rngState_nonneg {seed : Int} (hs : 0 ≤ seed) :
    ∀ n, 0 ≤ rngState seed n
  | 0 => rngInit_nonneg hs
  | n + 1 => rngStep_nonneg (rngState_nonneg hs n)

lemma rngState_lt {seed : Int} (hs : 0 ≤ seed) (n : Nat) :
    rngState seed (n + 1) < 4294967296 :=
  rngStep_lt (rngState_nonneg hs n)

lemma val_nonneg {s : Int} (hs : 0 ≤ s) : 0 ≤ val s := by
  unfold val
  have : (0 : ℚ) ≤ (s : ℚ) := by exact_mod_cast hs
  positivity

lemma val_lt_one {s : Int} (hs : s < 4294967296) : val s < 1 := by
  unfold val
  rw [div_lt_one (by norm_num)]
  exact_mod_cast hs

lemma rngDraw_nonneg {seed : Int} (hs : 0 ≤ seed) (n : Nat) :
    0 ≤ rngDraw seed n :=
  val_nonneg (rngState_nonneg hs (n + 1))

lemma rngDraw_lt_one {seed : Int} (hs : 0 ≤ seed) (n : Nat) :
    rngDraw seed n < 1 :=
  val_lt_one (rngState_lt hs n)

lemma seedOf_nonneg (p : List Nat) : 0 ≤ seedOf p := hashString_nonneg _

lemma hueOf_nonneg (p : List Nat) : 0 ≤ hueOf p := by
  unfold hueOf jsMod
  have h1 : 0 ≤ Int.tmod (seedOf p) 360 := by
    rw [Int.tmod_eq_emod (seedOf_nonneg p) (by omega)]; omega
  have : (0 : ℚ) ≤ (Int.tmod (seedOf p) 360 : ℚ) := by exact_mod_cast h1
  positivity

lemma hueOf_lt_one (p : List Nat) : hueOf p < 1 := by
  unfold hueOf jsMod
  have h1 : Int.tmod (seedOf p) 360 < 360 := by
    rw [Int.tmod_eq_emod (seedOf_nonneg p) (by omega)]; omega
  rw [div_lt_one (by norm_num)]
  exact_mod_cast h1

/-! ### Iterated states -/

lemma rngState_add (seed : Int) (m : Nat) :
    ∀ n, rngState seed (m + n) = rngStep^[n] (rngState seed m)
  | 0 => rfl
  | n + 1 => by
    rw [Function.iterate_succ_apply', ← rngState_add seed m n]
    rfl

lemma buildLayer_fst (hue : ℚ) (i : Nat) (s : Int) :
    (buildLayer hue i s).1 = rngStep^[8] s := by
  show rngStep _ = _
  simp [Function.iterate_succ_apply']

lemma buildSpark_fst (s : Int) :
    (buildSpark s).1 = rngStep^[5] s := by
  show rngStep _ = _
  simp [Function.iterate_succ_apply']

lemma buildLayers_fst (hue : ℚ) :
    ∀ (n i : Nat) (s : Int), (buildLayers hue i n s).1 = rngStep^[8 * n] s := by
  intro n
  induction n with
  | zero => intro i s; rfl
  | succ m ih =>
    intro i s
    show (buildLayers hue (i + 1) m (buildLayer hue i s).1).1 = _
    rw [ih, buildLayer_fst, ← Function.iterate_add_apply,
      show 8 * m + 8 = 8 * (m + 1) by ring]

lemma buildLayers_length (hue : ℚ) :
    ∀ (n i : Nat) (s : Int), (buildLayers hue i n s).2.length = n := by
  intro n
  induction n with
  | zero => intro i s; rfl
  | succ m ih => intro i s; simpa [buildLayers] using ih (i + 1) _

lemma buildLayers_getElem? (hue : ℚ) :
    ∀ (n j i : Nat) (s : Int), j < n →
      (buildLayers hue i n s).2[j]? =
        some (buildLayer hue (i + j) (rngStep^[8 * j] s)).2 := by
  intro n
  induction n with
  | zero => intro j i s hj; omega
  | succ m ih =>
    intro j i s hj
    cases j with
    | zero => simp [buildLayers]
    | succ k =>
      show ((buildLayer hue i s).2 :: (buildLayers hue (i + 1) m (buildLayer hue i s).1).2)[k + 1]? = _
      rw [List.getElem?_cons_succ, ih k (i + 1) _ (by omega), buildLayer_fst,
        ← Function.iterate_add_apply, show i + 1 + k = i + (k + 1) by omega,
        show 8 * k + 8 = 8 * (k + 1) by ring]

lemma buildSparks_fst :
    ∀ (n : Nat) (s : Int), (buildSparks n s).1 = rngStep^[5 * n] s := by
  intro n
  induction n with
  | zero => intro s; rfl
  | succ m ih =>
    intro s
    show (buildSparks m (buildSpark s).1).1 = _
    rw [ih, buildSpark_fst, ← Function.iterate_add_apply,
      show 5 * m + 5 = 5 * (m + 1) by ring]

lemma buildSparks_length :
    ∀ (n : Nat) (s : Int), (buildSparks n s).2.length = n := by
  intro n
  induction n with
  | zero => intro s; rfl
  | succ m ih => intro s; simpa [buildSparks] using ih _

lemma buildSparks_getElem? :
    ∀ (n j : Nat) (s : Int), j < n →
      (buildSparks n s).2[j]? = some (buildSpark (rngStep^[5 * j] s)).2 := by
  intro n
  induction n with
  | zero => intro j s hj; omega
  | succ m ih =>
    intro j s hj
    cases j with
    | zero => simp [buildSparks]
    | succ k =>
      show ((buildSpark s).2 :: (buildSparks m (buildSpark s).1).2)[k + 1]? = _
      rw [List.getElem?_cons_succ, ih k _ (by omega), buildSpark_fst,
        ← Function.iterate_add_apply, show 5 * k + 5 = 5 * (k + 1) by ring]

/-! ### Characterization of `buildScene` by draw index -/

lemma rngStep_rngState (seed : Int) (m : Nat) :
    rngStep (rngState seed m) = rngState seed (m + 1) := rfl

lemma rngState_one (seed : Int) :
    rngStep (rngInit seed) = rngState seed 1 := rfl

lemma iterate_rngState (seed : Int) (m n : Nat) :
    rngStep^[n] (rngState seed m) = rngState seed (m + n) :=
  (rngState_add seed m n).symm

lemma buildScene_layers_length (p : List Nat) :
    (buildScene p).layers.length = 5 + (⌊rngDraw (seedOf p) 0 * 5⌋).toNat := by
  simp only [buildScene, buildLayers_length]
  rfl

lemma buildScene_layers_getElem? (p : List Nat) (j : Nat)
    (hj : j < (buildScene p).layers.length) :
    (buildScene p).layers[j]? =
      some (buildLayer (hueOf p) j (rngState (seedOf p) (1 + 8 * j))).2 := by
  rw [buildScene_layers_length] at hj
  have hj' : j < 5 + (⌊val (rngStep (rngInit (hashString (normalize p)))) * 5⌋).toNat := hj
  simp only [buildScene]
  rw [buildLayers_getElem? _ _ _ _ _ hj', rngState_one, iterate_rngState,
    Nat.zero_add]
  rfl

lemma buildScene_sparks_length (p : List Nat) :
    (buildScene p).sparks.length =
      120 + (⌊rngDraw (seedOf p) (1 + 8 * (buildScene p).layers.length) * 180⌋).toNat := by
  rw [buildScene_layers_length]
  simp only [buildScene, buildSparks_length]
  rw [buildLayers_fst, rngState_one, iterate_rngState, rngStep_rngState]
  rfl

lemma buildScene_sparks_getElem? (p : List Nat) (j : Nat)
    (hj : j < (buildScene p).sparks.length) :
    (buildScene p).sparks[j]? =
      some (buildSpark (rngState (seedOf p)
        (2 + 8 * (buildScene p).layers.length + 5 * j))).2 := by
  rw [buildScene_sparks_length, buildScene_layers_length] at hj
  rw [buildScene_layers_length]
  simp only [buildScene]
  have hj' : j < 120 + (⌊val (rngStep ((buildLayers
      ((jsMod (hashString (normalize p)) 360 : ℚ) / 360) 0
      (5 + (⌊val (rngStep (rngInit (hashString (normalize p)))) * 5⌋).toNat)
      (rngStep (rngInit (hashString (normalize p))))).1)) * 180⌋).toNat := by
    rw [buildLayers_fst, rngState_one, iterate_rngState, rngStep_rngState]
    exact hj
  rw [buildSparks_getElem? _ _ _ hj', buildLayers_fst, rngState_one,
    iterate_rngState, rngStep_rngState, iterate_rngState]
  simp only [seedOf, rngDraw, Nat.zero_add, rngState_one]
  congr 3
  congr 1
  omega

lemma buildScene_pulse (p : List Nat) :
    (buildScene p).pulse =
      0.4 + rngDraw (seedOf p)
        (2 + 8 * (buildScene p).layers.length + 5 * (buildScene p).sparks.length) * 0.4 := by
  rw [buildScene_sparks_length, buildScene_layers_length]
  simp only [buildScene]
  rw [buildLayers_fst, rngState_one, iterate_rngState, rngStep_rngState,
    buildSparks_fst, iterate_rngState, rngStep_rngState]
  simp only [seedOf, rngDraw, Nat.zero_add]
  congr 4
  omega

lemma buildScene_distort (p : List Nat) :
    (buildScene p).distort =
      0.5 + rngDraw (seedOf p)
        (3 + 8 * (buildScene p).layers.length + 5 * (buildScene p).sparks.length) * 0.9 := by
  rw [buildScene_sparks_length, buildScene_layers_length]
  simp only [buildScene]
  rw [buildLayers_fst, rngState_one, iterate_rngState, rngStep_rngState,
    buildSparks_fst, iterate_rngState, rngStep_rngState, rngStep_rngState]
  simp only [seedOf, rngDraw, Nat.zero_add]
  congr 4
  omega

/-- The accent value `buildScene` derives from a prompt. -/
def accentOf (p : List Nat) : ℚ :=
  clamp ((jsMod (jsShr8 (seedOf p)) 360 : ℚ) / 360) 0 1

lemma buildScene_background (p : List Nat) :
    (buildScene p).background =
      [{ h := ⌊hueOf p * 360⌋, s := 68, l := 12 },
       { h := ⌊jsRemQ (hueOf p + accentOf p / 3) 1 * 360⌋, s := 80, l := 22 }] := by
  simp only [buildScene]
  rfl

/-! ### Numeric range facts -/

lemma jsPI_pos : 0 < jsPI := by norm_num [jsPI]

lemma jsPI_lt_pi : ((jsPI : ℚ) : ℝ) < Real.pi := by
  have h1 : ((jsPI : ℚ) : ℝ) < 3.14159265358979323846 := by
    rw [jsPI]; push_cast; norm_num
  exact h1.trans Real.pi_gt_d20

lemma val_rngStep_bounds {s : Int} (hs : 0 ≤ s) :
    0 ≤ val (rngStep s) ∧ val (rngStep s) < 1 :=
  ⟨val_nonneg (rngStep_nonneg hs), val_lt_one (rngStep_lt hs)⟩

lemma fract_bounds {a : ℚ} (ha : 0 ≤ a) : 0 ≤ jsRemQ a 1 ∧ jsRemQ a 1 < 1 := by
  unfold jsRemQ jsTrunc
  rw [div_one, if_pos ha]
  have h1 := Int.floor_le a
  have h2 := Int.lt_floor_add_one a
  constructor <;> [linarith; linarith]

/-- The real-valued rotation `r * jsPI * 2` of a draw `r ∈ [0,1)` lies in
`[0, 2π)`. -/
lemma rotation_bounds {r : ℚ} (h0 : 0 ≤ r) (h1 : r < 1) :
    0 ≤ r * jsPI * 2 ∧ ((r * jsPI * 2 : ℚ) : ℝ) < 2 * Real.pi := by
  constructor
  · have := jsPI_pos.le
    positivity
  · have hpi := jsPI_lt_pi
    have hpip : (0 : ℝ) < ((jsPI : ℚ) : ℝ) := by exact_mod_cast jsPI_pos
    have hr0 : (0 : ℝ) ≤ ((r : ℚ) : ℝ) := by exact_mod_cast h0
    have hr1 : ((r : ℚ) : ℝ) < 1 := by exact_mod_cast h1
    push_cast
    nlinarith

lemma buildLayer_bounds (hue : ℚ) (i : Nat) {s : Int} (hs : 0 ≤ s) :
    0.25 ≤ (buildLayer hue i s).2.radius ∧ (buildLayer hue i s).2.radius < 0.9 ∧
    0 ≤ (buildLayer hue i s).2.rotation ∧
    (((buildLayer hue i s).2.rotation : ℚ) : ℝ) < 2 * Real.pi ∧
    0.2 ≤ (buildLayer hue i s).2.speed ∧ (buildLayer hue i s).2.speed < 1.1 ∧
    0.2 ≤ (buildLayer hue i s).2.variance ∧ (buildLayer hue i s).2.variance < 0.8 := by
  have h1 : 0 ≤ rngStep s := rngStep_nonneg hs
  have h2 : 0 ≤ rngStep (rngStep s) := rngStep_nonneg h1
  have h3 := rngStep_nonneg h2
  have h4 := rngStep_nonneg h3
  have h5 := rngStep_nonneg h4
  have h6 := rngStep_nonneg h5
  have h7 := rngStep_nonneg h6
  obtain ⟨hr0, hr1⟩ := val_rngStep_bounds h4
  obtain ⟨ho0, ho1⟩ := val_rngStep_bounds h5
  obtain ⟨hp0, hp1⟩ := val_rngStep_bounds h6
  obtain ⟨hv0, hv1⟩ := val_rngStep_bounds h7
  obtain ⟨hrot0, hrot1⟩ := rotation_bounds ho0 ho1
  unfold buildLayer
  refine ⟨by linarith, by linarith, hrot0, hrot1, by linarith, by linarith,
    by linarith, by linarith⟩

lemma buildSpark_bounds {s : Int} (hs : 0 ≤ s) :
    0 ≤ (buildSpark s).2.angle ∧
    (((buildSpark s).2.angle : ℚ) : ℝ) < 2 * Real.pi ∧
    0.1 ≤ (buildSpark s).2.distance ∧ (buildSpark s).2.distance < 1 ∧
    1 ≤ (buildSpark s).2.size ∧ (buildSpark s).2.size < 3 ∧
    0.5 ≤ (buildSpark s).2.drift ∧ (buildSpark s).2.drift < 2 ∧
    -20 ≤ (buildSpark s).2.hueShift ∧ (buildSpark s).2.hueShift < 20 := by
  have h1 : 0 ≤ rngStep s := rngStep_nonneg hs
  have h2 := rngStep_nonneg h1
  have h3 := rngStep_nonneg h2
  have h4 := rngStep_nonneg h3
  obtain ⟨ha0, ha1⟩ := val_rngStep_bounds hs
  obtain ⟨hd0, hd1⟩ := val_rngStep_bounds h1
  obtain ⟨hs0, hs1⟩ := val_rngStep_bounds h2
  obtain ⟨hf0, hf1⟩ := val_rngStep_bounds h3
  obtain ⟨hh0, hh1⟩ := val_rngStep_bounds h4
  obtain ⟨hang0, hang1⟩ := rotation_bounds ha0 ha1
  unfold buildSpark
  refine ⟨hang0, hang1, by linarith, by linarith, by linarith, by linarith,
    by linarith, by linarith, by linarith, by linarith⟩

/-! ### Floor of a draw times an integer, as integer division -/

lemma floor_val_mul (s : Int) (k : Nat) :
    ⌊val s * (k : ℚ)⌋ = s * (k : Int) / 4294967296 := by
  unfold val
  rw [div_mul_eq_mul_div,
    show ((s : ℚ) * (k : ℚ)) = ((s * (k : Int) : Int) : ℚ) by push_cast; ring,
    show (4294967296 : ℚ) = ((4294967296 : ℕ) : ℚ) by norm_num]
  exact_mod_cast Rat.floor_intCast_div_natCast _ _

lemma floor_rngDraw_mul (seed : Int) (n : Nat) (k : Nat) :
    ⌊rngDraw seed n * (k : ℚ)⌋ = rngState seed (n + 1) * (k : Int) / 4294967296 := by
  unfold rngDraw
  exact floor_val_mul _ _

/-! ### Normalization: trim and toLowerCase -/

lemma isWS_lowerChar (c : Nat) : isWS (lowerChar c) = isWS c := by
  unfold lowerChar
  split
  · rename_i h
    have h1 : (c + 32) ∉ wsCodes := by
      simp only [wsCodes, List.mem_cons, List.not_mem_nil, or_false]
      omega
    have h2 : c ∉ wsCodes := by
      simp only [wsCodes, List.mem_cons, List.not_mem_nil, or_false]
      omega
    simp [isWS, h1, h2]
  · rfl

lemma lowerChar_idem (c : Nat) : lowerChar (lowerChar c) = lowerChar c := by
  unfold lowerChar
  split_ifs <;> omega

lemma toLower_idem (s : List Nat) : toLower (toLower s) = toLower s := by
  unfold toLower
  rw [List.map_map]
  congr 1
  funext c
  exact lowerChar_idem c

lemma trim_eq_rdropWhile (s : List Nat) :
    trim s = List.rdropWhile isWS (List.dropWhile isWS s) := rfl

lemma dropWhile_rdropWhile_dropWhile (s : List Nat) :
    List.dropWhile isWS (List.rdropWhile isWS (List.dropWhile isWS s)) =
      List.rdropWhile isWS (List.dropWhile isWS s) := by
  rcases eq_or_ne (List.rdropWhile isWS (List.dropWhile isWS s)) [] with h | h
  · rw [h]; rfl
  · rw [List.dropWhile_eq_self_iff]
    intro hl
    obtain ⟨t, ht⟩ := List.rdropWhile_prefix isWS (List.dropWhile isWS s)
    have hlen : 0 < (List.dropWhile isWS s).length := by
      rw [← ht, List.length_append]
      omega
    have hq1 : (List.dropWhile isWS s)[0]? =
        some ((List.rdropWhile isWS (List.dropWhile isWS s)).get ⟨0, hl⟩) := by
      conv_lhs => rw [← ht]
      rw [List.getElem?_append_left hl, List.getElem?_eq_getElem hl]
      rfl
    have hq2 : (List.dropWhile isWS s)[0]? =
        some ((List.dropWhile isWS s).get ⟨0, hlen⟩) :=
      List.getElem?_eq_getElem hlen
    have hg : (List.dropWhile isWS s).get ⟨0, hlen⟩ =
        (List.rdropWhile isWS (List.dropWhile isWS s)).get ⟨0, hl⟩ :=
      Option.some.inj (hq2.symm.trans hq1)
    have := List.dropWhile_get_zero_not isWS s hlen
    rwa [hg] at this

lemma trim_idem (s : List Nat) : trim (trim s) = trim s := by
  rw [trim_eq_rdropWhile, trim_eq_rdropWhile, dropWhile_rdropWhile_dropWhile,
    List.rdropWhile_idempotent]

lemma trim_toLower (s : List Nat) : trim (toLower s) = toLower (trim s) := by
  have hfun : (isWS ∘ lowerChar) = isWS := funext isWS_lowerChar
  unfold trim toLower
  rw [List.dropWhile_map, hfun, ← List.map_reverse, List.dropWhile_map, hfun,
    ← List.map_reverse]

lemma normalize_idem_arg (p : List Nat) :
    normalize (toLower (trim p)) = normalize p := by
  unfold normalize
  rw [trim_toLower, trim_idem, toLower_idem]

lemma buildScene_congr {p q : List Nat} (h : normalize p = normalize q) :
    buildScene p = buildScene q := by
  unfold buildScene
  rw [h]

lemma normalize_of_trim_nil {p : List Nat} (h : trim p = []) :
    normalize p = soraCodes := by
  unfold normalize
  rw [h]
  rfl

lemma normalize_sora : normalize soraCodes = soraCodes := by rfl

/-! ### The first layer-hue draw is never zero -/

lemma rngState_two_ne_zero {seed : Int} (h0 : 0 ≤ seed)
    (h1 : seed ≤ 2147483648) : rngState seed 2 ≠ 0 := by
  intro hz
  have hs0 : 1 ≤ rngState seed 0 ∧ rngState seed 0 ≤ 2147483648 := by
    have h : rngState seed 0 = rngInit seed := rfl
    rw [h]
    unfold rngInit
    split <;> omega
  have e1 : rngState seed 1 =
      (rngState seed 0 * 1664525 + 1013904223) % 4294967296 := by
    have h : rngState seed 1 = rngStep (rngState seed 0) := rfl
    have hm : Int.tmod (rngState seed 0 * 1664525 + 1013904223) 4294967296 =
        (rngState seed 0 * 1664525 + 1013904223) % 4294967296 :=
      Int.tmod_eq_emod (by omega) (by omega)
    rw [h]
    unfold rngStep
    rw [hm]
  have hs1 : 0 ≤ rngState seed 1 ∧ rngState seed 1 < 4294967296 := by omega
  have e2 : (rngState seed 1 * 1664525 + 1013904223) % 4294967296 = 0 := by
    have h : rngState seed 2 = rngStep (rngState seed 1) := rfl
    have hm : Int.tmod (rngState seed 1 * 1664525 + 1013904223) 4294967296 =
        (rngState seed 1 * 1664525 + 1013904223) % 4294967296 :=
      Int.tmod_eq_emod (by omega) (by omega)
    rw [hz] at h
    unfold rngStep at h
    rw [hm] at h
    exact h.symm
  have e3 : rngState seed 1 = 634785765 := by
    clear e1 hz h0 h1 hs0
    omega
  rw [e3] at e1
  clear e2 e3 hz hs1 h0 h1
  omega

lemma rngDraw_one_pos {seed : Int} (h0 : 0 ≤ seed)
    (h1 : seed ≤ 2147483648) : 0 < rngDraw seed 1 := by
  have hne := rngState_two_ne_zero h0 h1
  have hnn := rngState_nonneg h0 2
  have hpos : 0 < rngState seed 2 := lt_of_le_of_ne hnn (Ne.symm hne)
  unfold rngDraw val
  have : (0 : ℚ) < (rngState seed 2 : ℚ) := by exact_mod_cast hpos
  positivity

/-! ### Bounds on the layer hue -/

lemma layerHueAt_bounds (p : List Nat) (i : Nat) :
    -0.125 < layerHueAt p i ∧ layerHueAt p i < 1 := by
  have hhue0 := hueOf_nonneg p
  have hhue1 := hueOf_lt_one p
  have hr0 := rngDraw_nonneg (seedOf_nonneg p) (1 + 8 * i)
  have hr1 := rngDraw_lt_one (seedOf_nonneg p) (1 + 8 * i)
  unfold layerHueAt layerHue
  by_cases ha : 0 ≤ hueOf p + rngDraw (seedOf p) (1 + 8 * i) * 0.25 - 0.125 + (i : ℚ) * 0.03
  · obtain ⟨hf0, hf1⟩ := fract_bounds ha
    constructor <;> [linarith; linarith]
  · push_neg at ha
    have hi0 : (0 : ℚ) ≤ (i : ℚ) := by positivity
    have hgt : -0.125 <
        hueOf p + rngDraw (seedOf p) (1 + 8 * i) * 0.25 - 0.125 + (i : ℚ) * 0.03 := by
      rcases Nat.eq_zero_or_pos i with hi | hi
      · subst hi
        have hpos := rngDraw_one_pos (seedOf_nonneg p) (hashString_le (normalize p))
        push_cast
        nlinarith
      · have : (1 : ℚ) ≤ (i : ℚ) := by exact_mod_cast hi
        nlinarith
    have hceil : jsTrunc ((hueOf p + rngDraw (seedOf p) (1 + 8 * i) * 0.25 - 0.125
        + (i : ℚ) * 0.03) / 1) = 0 := by
      rw [div_one]
      unfold jsTrunc
      rw [if_neg (by linarith)]
      rw [Int.ceil_eq_zero_iff]
      constructor <;> [linarith; linarith]
    unfold jsRemQ
    rw [hceil]
    constructor <;> [linarith; linarith]

/-! ### drawScene: the renderer as a trace of canvas commands

`drawScene` issues a fixed sequence of canvas operations; the model records
them as a list of commands with real-valued coordinates: the clear, the
background gradient fill, one blurred filled path per layer, the switch to
additive blending, one radial-gradient circle fill per spark, and the
restoration of normal blending. -/

/-- Canvas composite (blend) operations used by the renderer. -/
inductive CompositeOp
  | sourceOver
  | lighter
  deriving DecidableEq

/-- An `hsla` color with real-valued components, as used in the spark
gradient stops. -/
structure HslaR where
  h : ℝ
  s : ℝ
  l : ℝ
  a : ℝ

/-- One drawing command issued by `drawScene`. -/
inductive Cmd
  | clearRect (w h : ℝ)
  | fillRectLinear (w h : ℝ) (stop0 stop1 : Hsl)
  | fillPath (pts : List (ℝ × ℝ)) (color : Hsla) (blur : ℝ)
  | setComposite (op : CompositeOp)
  | fillCircleRadial (x y r : ℝ) (inner outer : HslaR)

/-- The path-fill command for one layer, from the source: 361 vertices of a
distorted circle, rigidly rotated by `layerTime * 0.25`, filled with the
layer's color under a blur of `3 + index * 1.5`. -/
noncomputable def layerCmd (distort : ℚ) (t cx cy maxDim pulse : ℝ)
    (index : Nat) (layer : LayerSpec) : Cmd :=
  let layerTime := t * (layer.speed : ℝ) + (layer.rotation : ℝ)
  let radius := maxDim * (layer.radius : ℝ) * pulse / 2
  Cmd.fillPath
    ((List.range 361).map (fun i =>
      let angle := (i : ℝ) / 360 * (jsPI : ℝ) * 2
      let distortion := Real.sin (angle * (2 + (index : ℝ)) + layerTime) * (layer.variance : ℝ)
      (cx + Real.cos (angle + layerTime * 0.25) * radius * (1 + distortion * (distort : ℝ) * 0.4),
       cy + Real.sin (angle + layerTime * 0.25) * radius * (1 + distortion * (distort : ℝ) * 0.4))))
    layer.color (3 + (index : ℝ) * 1.5)

/-- The radial-glow command for one spark, from the source. -/
noncomputable def sparkCmd (t cx cy maxDim : ℝ) (idx : Nat)
    (spark : SparkSpec) : Cmd :=
  let sparkTime := t * (spark.drift : ℝ) + (idx : ℝ) * 0.01
  let angle := (spark.angle : ℝ) + Real.sin (sparkTime * 0.5) * 0.5
  let distance := (spark.distance : ℝ) + Real.sin sparkTime * 0.02
  let x := cx + Real.cos angle * distance * maxDim * 0.45
  let y := cy + Real.sin angle * distance * maxDim * 0.45
  Cmd.fillCircleRadial x y ((spark.size : ℝ) * 12)
    ⟨(spark.hueShift : ℝ) + t * 40, 80, 70, 0.85⟩
    ⟨0, 0, 100, 0⟩

/-- `drawScene` from the source, as the list of issued commands. -/
noncomputable def drawScene (bp : SceneBlueprint) (time w h : ℝ) : List Cmd :=
  let cx := w / 2
  let cy := h / 2
  let maxDim := max w h
  let pulse := 1 + Real.sin (time * (bp.pulse : ℝ)) * 0.05
  [Cmd.clearRect w h,
   Cmd.fillRectLinear w h (bp.background.getD 0 ⟨0, 0, 0⟩) (bp.background.getD 1 ⟨0, 0, 0⟩)]
  ++ bp.layers.enum.map (fun q => layerCmd bp.distort time cx cy maxDim pulse q.1 q.2)
  ++ [Cmd.setComposite CompositeOp.lighter]
  ++ bp.sparks.enum.map (fun q => sparkCmd time cx cy maxDim q.1 q.2)
  ++ [Cmd.setComposite CompositeOp.sourceOver]

/-- Effect of one command on the context's composite (blend) state. -/
def compositeStep (c : CompositeOp) (cmd : Cmd) : CompositeOp :=
  match cmd with
  | Cmd.setComposite op => op
  | _ => c

/-- The composite (blend) state after a command list runs, starting
from `c0`. -/
def compositeAfter (c0 : CompositeOp) (cmds : List Cmd) : CompositeOp :=
  cmds.foldl compositeStep c0

/-! ### Length bounds -/

lemma layers_length_bounds (p : List Nat) :
    5 ≤ (buildScene p).layers.length ∧ (buildScene p).layers.length ≤ 9 := by
  rw [buildScene_layers_length]
  have h0 := rngDraw_nonneg (seedOf_nonneg p) 0
  have h1 := rngDraw_lt_one (seedOf_nonneg p) 0
  have hf0 : (0 : Int) ≤ ⌊rngDraw (seedOf p) 0 * 5⌋ :=
    Int.floor_nonneg.2 (by nlinarith)
  have hf1 : ⌊rngDraw (seedOf p) 0 * 5⌋ < 5 :=
    Int.floor_lt.2 (by push_cast; nlinarith)
  omega

lemma sparks_length_bounds (p : List Nat) :
    120 ≤ (buildScene p).sparks.length ∧ (buildScene p).sparks.length ≤ 299 := by
  rw [buildScene_sparks_length]
  have h0 := rngDraw_nonneg (seedOf_nonneg p) (1 + 8 * (buildScene p).layers.length)
  have h1 := rngDraw_lt_one (seedOf_nonneg p) (1 + 8 * (buildScene p).layers.length)
  have hf0 : (0 : Int) ≤
      ⌊rngDraw (seedOf p) (1 + 8 * (buildScene p).layers.length) * 180⌋ :=
    Int.floor_nonneg.2 (by nlinarith)
  have hf1 : ⌊rngDraw (seedOf p) (1 + 8 * (buildScene p).layers.length) * 180⌋ < 180 :=
    Int.floor_lt.2 (by push_cast; nlinarith)
  omega

lemma layers_ne_nil (p : List Nat) : (buildScene p).layers ≠ [] := by
  intro h
  have := (layers_length_bounds p).1
  rw [h] at this
  simp at this

lemma sparks_ne_nil (p : List Nat) : (buildScene p).sparks ≠ [] := by
  intro h
  have := (sparks_length_bounds p).1
  rw [h] at this
  simp at this

/-! ## The claims -/

/-- C1: for every prompt string `p`, two calls of `buildScene p` yield
identical `SceneBlueprint` values: the same layer count and spark count, and
equal layers, sparks, background, pulse and distort, to full precision.
(`buildScene` is a pure function of the prompt; the generator closure is
created inside the call, so no state is shared between calls.) -/
theorem claim_C1 (p : List Nat) (b1 b2 : SceneBlueprint)
    (h1 : b1 = buildScene p) (h2 : b2 = buildScene p) :
    b1 = b2 ∧ b1.layers.length = b2.layers.length ∧
    b1.sparks.length = b2.sparks.length ∧ b1.layers = b2.layers ∧
    b1.sparks = b2.sparks ∧ b1.background = b2.background ∧
    b1.pulse = b2.pulse ∧ b1.distort = b2.distort := by
  subst h1
  subst h2
  exact ⟨rfl, rfl, rfl, rfl, rfl, rfl, rfl, rfl⟩

/-- Witness for C1 at the empty prompt. -/
theorem claim_C1_witness :
    buildScene [] = buildScene [] ∧
    (buildScene []).pulse = (buildScene []).pulse :=
  ⟨(claim_C1 [] (buildScene []) (buildScene []) rfl rfl).1,
   (claim_C1 [] (buildScene []) (buildScene []) rfl rfl).2.2.2.2.2.2.1⟩

/-- The accumulator described by the claim for C2: iterate
`hash = hash * 31 + charCode` under two's-complement 32-bit wraparound at
each step, starting from 0. (Stated from the claim's words, to be compared
with `hashString` from the source.) -/
def specHashAcc (s : List Nat) : Int :=
  s.foldl (fun (h : Int) (c : Nat) => int32 (h * 31 + (c : Int))) 0

/-- C2: `hashString s` equals the absolute value of the accumulator obtained
by iterating `hash*31 + charCode` under 32-bit wraparound; the result is a
non-negative integer; and equal inputs yield equal outputs. -/
theorem claim_C2 (s t : List Nat) :
    hashString s = ((specHashAcc s).natAbs : Int) ∧
    0 ≤ hashString s ∧ (s = t → hashString s = hashString t) := by
  refine ⟨?_, hashString_nonneg s, fun h => by rw [h]⟩
  have step : ∀ (h : Int) (c : Nat), hashStep h c = int32 (h * 31 + (c : Int)) := by
    intro h c
    unfold hashStep int32
    omega
  have main : ∀ (l : List Nat) (h : Int),
      l.foldl hashStep h =
        l.foldl (fun (h : Int) (c : Nat) => int32 (h * 31 + (c : Int))) h := by
    intro l
    induction l with
    | nil => intro h; rfl
    | cons c tl ih =>
      intro h
      simp only [List.foldl_cons, step, ih]
  unfold hashString specHashAcc
  rw [main]

/-- Witness for C2: the equal-inputs hypothesis at the default token. -/
theorem claim_C2_witness : hashString soraCodes = hashString soraCodes :=
  (claim_C2 soraCodes soraCodes).2.2 rfl

/-- C3 counterexample: the claim asserts every returned value lies in
`[0, 1)`, but for the negative seed `-1000` the very first value of the
generator is negative, because the JS `%` operator keeps the dividend's
sign. -/
theorem claim_C3_counterexample : rngDraw (-1000) 0 < 0 := by
  have h : rngState (-1000) 1 = -650620777 := by decide
  unfold rngDraw
  rw [h]
  norm_num [val]

/-- C3 amended: for nonnegative seeds (the only ones the program produces,
since they come from `hashString`), the generator starts from `seed`
(substituting 1 for 0), each call updates the state to
`(state*1664525 + 1013904223) mod 2^32` in the mathematical sense, every
returned value lies in `[0, 1)`, and equal seeds give identical sequences. -/
theorem claim_C3_amended (seed : Int) (h0 : 0 ≤ seed) :
    rngState seed 0 = (if seed = 0 then 1 else seed) ∧
    (∀ n, rngState seed (n + 1) =
        (rngState seed n * 1664525 + 1013904223) % 4294967296 ∧
      0 ≤ rngDraw seed n ∧ rngDraw seed n < 1) ∧
    (∀ seed2 : Int, seed = seed2 → ∀ n, rngDraw seed n = rngDraw seed2 n) := by
  refine ⟨rfl, fun n => ⟨?_, rngDraw_nonneg h0 n, rngDraw_lt_one h0 n⟩,
    fun s2 h n => by rw [h]⟩
  have h : rngState seed (n + 1) = rngStep (rngState seed n) := rfl
  have hs := rngState_nonneg h0 n
  rw [h]
  unfold rngStep
  exact Int.tmod_eq_emod (by omega) (by omega)

/-- Witness for C3 (amended) at seed 7. -/
theorem claim_C3_amended_witness :
    (0 : Int) ≤ 7 ∧ 0 ≤ rngDraw 7 0 ∧ rngDraw 7 0 < 1 :=
  ⟨by norm_num, ((claim_C3_amended 7 (by norm_num)).2.1 0).2.1,
   ((claim_C3_amended 7 (by norm_num)).2.1 0).2.2⟩

/-- C6: `buildScene ""`, `buildScene "   "`, and `buildScene p` for every
prompt whose trimmed form is empty return the same blueprint, namely the
one built from the fixed default token `"sora"`. -/
theorem claim_C6 :
    buildScene [] = buildScene soraCodes ∧
    buildScene [32, 32, 32] = buildScene soraCodes ∧
    ∀ p : List Nat, trim p = [] → buildScene p = buildScene soraCodes := by
  have key : ∀ p : List Nat, trim p = [] → buildScene p = buildScene soraCodes := by
    intro p h
    exact buildScene_congr ((normalize_of_trim_nil h).trans normalize_sora.symm)
  exact ⟨key [] (by decide), key [32, 32, 32] (by decide), key⟩

/-- Witness for C6 at the all-whitespace prompt consisting of one tab. -/
theorem claim_C6_witness :
    trim [9] = [] ∧ buildScene [9] = buildScene soraCodes :=
  ⟨by decide, claim_C6.2.2 [9] (by decide)⟩

/-- C7: `buildScene p` and `buildScene (p.trim().toLowerCase())` return
identical blueprints, because normalization is idempotent. -/
theorem claim_C7 (p : List Nat) :
    buildScene p = buildScene (toLower (trim p)) :=
  (buildScene_congr (normalize_idem_arg p)).symm

/-- C4: for every prompt, the blueprint satisfies the range invariants:
`layers.length ∈ [5, 9]`, `sparks.length ∈ [120, 299]`, exactly two
background stops, every layer field and spark field in its half-open range
(rotation and angle in `[0, 2π)` over the reals), `pulse ∈ [0.4, 0.8)` and
`distort ∈ [0.5, 1.4)`. All fields are rationals of the model, hence
finite. -/
theorem claim_C4 (p : List Nat) :
    (5 ≤ (buildScene p).layers.length ∧ (buildScene p).layers.length ≤ 9) ∧
    (120 ≤ (buildScene p).sparks.length ∧ (buildScene p).sparks.length ≤ 299) ∧
    (buildScene p).background.length = 2 ∧
    (∀ l ∈ (buildScene p).layers,
      0.25 ≤ l.radius ∧ l.radius < 0.9 ∧
      0 ≤ l.rotation ∧ ((l.rotation : ℚ) : ℝ) < 2 * Real.pi ∧
      0.2 ≤ l.speed ∧ l.speed < 1.1 ∧
      0.2 ≤ l.variance ∧ l.variance < 0.8) ∧
    (∀ sp ∈ (buildScene p).sparks,
      0 ≤ sp.angle ∧ ((sp.angle : ℚ) : ℝ) < 2 * Real.pi ∧
      0.1 ≤ sp.distance ∧ sp.distance < 1 ∧
      1 ≤ sp.size ∧ sp.size < 3 ∧
      0.5 ≤ sp.drift ∧ sp.drift < 2 ∧
      -20 ≤ sp.hueShift ∧ sp.hueShift < 20) ∧
    (0.4 ≤ (buildScene p).pulse ∧ (buildScene p).pulse < 0.8) ∧
    (0.5 ≤ (buildScene p).distort ∧ (buildScene p).distort < 1.4) := by
  refine ⟨layers_length_bounds p, sparks_length_bounds p, ?_, ?_, ?_, ?_, ?_⟩
  · rw [buildScene_background]
    rfl
  · intro l hl
    obtain ⟨i, hi⟩ := List.mem_iff_getElem?.1 hl
    have hilt : i < (buildScene p).layers.length := by
      by_contra hge
      push_neg at hge
      rw [List.getElem?_eq_none hge] at hi
      cases hi
    rw [buildScene_layers_getElem? p i hilt] at hi
    have hlx := Option.some.inj hi
    exact hlx ▸ buildLayer_bounds (hueOf p) i
      (rngState_nonneg (seedOf_nonneg p) (1 + 8 * i))
  · intro sp hsp
    obtain ⟨i, hi⟩ := List.mem_iff_getElem?.1 hsp
    have hilt : i < (buildScene p).sparks.length := by
      by_contra hge
      push_neg at hge
      rw [List.getElem?_eq_none hge] at hi
      cases hi
    rw [buildScene_sparks_getElem? p i hilt] at hi
    have hsx := Option.some.inj hi
    exact hsx ▸ buildSpark_bounds
      (rngState_nonneg (seedOf_nonneg p) (2 + 8 * (buildScene p).layers.length + 5 * i))
  · rw [buildScene_pulse]
    have h0 := rngDraw_nonneg (seedOf_nonneg p)
      (2 + 8 * (buildScene p).layers.length + 5 * (buildScene p).sparks.length)
    have h1 := rngDraw_lt_one (seedOf_nonneg p)
      (2 + 8 * (buildScene p).layers.length + 5 * (buildScene p).sparks.length)
    constructor <;> linarith
  · rw [buildScene_distort]
    have h0 := rngDraw_nonneg (seedOf_nonneg p)
      (3 + 8 * (buildScene p).layers.length + 5 * (buildScene p).sparks.length)
    have h1 := rngDraw_lt_one (seedOf_nonneg p)
      (3 + 8 * (buildScene p).layers.length + 5 * (buildScene p).sparks.length)
    constructor <;> linarith

/-- Witness for C4: the head layer and head spark of the default blueprint
satisfy their range constraints. -/
theorem claim_C4_witness :
    0.25 ≤ ((buildScene []).layers.head (layers_ne_nil [])).radius ∧
    1 ≤ ((buildScene []).sparks.head (sparks_ne_nil [])).size :=
  ⟨((claim_C4 []).2.2.2.1 _ (List.head_mem _)).1,
   ((claim_C4 []).2.2.2.2.1 _ (List.head_mem _)).2.2.2.2.1⟩

set_option maxRecDepth 8000 in
/-- C5 counterexample: for the prompt `"sora"`, the blueprint's spark count
is not determined by the generator draw at position `1 + 5 * layerCount`,
because each layer consumes eight draws, not five: the actual spark count is
293, while the draw at `1 + 5 * layerCount` would give 176. -/
theorem claim_C5_counterexample :
    (buildScene soraCodes).sparks.length ≠
      120 + (⌊rngDraw (seedOf soraCodes)
        (1 + 5 * (buildScene soraCodes).layers.length) * 180⌋).toNat := by
  have hseed : seedOf soraCodes = 3536267 := by decide
  have hL : (buildScene soraCodes).layers.length = 8 := by
    rw [buildScene_layers_length, hseed,
      show (5 : ℚ) = ((5 : ℕ) : ℚ) by norm_num, floor_rngDraw_mul]
    decide
  have hS : (buildScene soraCodes).sparks.length = 293 := by
    rw [buildScene_sparks_length, hseed, hL,
      show (180 : ℚ) = ((180 : ℕ) : ℚ) by norm_num, floor_rngDraw_mul]
    decide
  rw [hS, hseed, hL,
    show (180 : ℚ) = ((180 : ℕ) : ℚ) by norm_num, floor_rngDraw_mul]
  decide

/-- C5 amended: after the single layer-count draw, each of the layers
consumes exactly eight draws (hue, saturation, lightness and alpha for the
color, then radius, rotation, speed, variance), the hue additionally
shifted by `index * 0.03`; consequently the spark-count draw is draw number
`1 + 8 * layerCount` (0-indexed) of the sequence, and pulse and distort are
the final two draws of the whole build (draws `N - 2` and `N - 1` of the
`N = 4 + 8 * layerCount + 5 * sparkCount` total). -/
theorem claim_C5_amended (p : List Nat) :
    (buildScene p).layers.length = 5 + (⌊rngDraw (seedOf p) 0 * 5⌋).toNat ∧
    (∀ i, i < (buildScene p).layers.length →
      (buildScene p).layers[i]? =
        some (buildLayer (hueOf p) i (rngState (seedOf p) (1 + 8 * i))).2) ∧
    (buildScene p).sparks.length =
      120 + (⌊rngDraw (seedOf p)
        (1 + 8 * (buildScene p).layers.length) * 180⌋).toNat ∧
    (buildScene p).pulse = 0.4 + rngDraw (seedOf p)
      (2 + 8 * (buildScene p).layers.length + 5 * (buildScene p).sparks.length) * 0.4 ∧
    (buildScene p).distort = 0.5 + rngDraw (seedOf p)
      (3 + 8 * (buildScene p).layers.length + 5 * (buildScene p).sparks.length) * 0.9 :=
  ⟨buildScene_layers_length p, fun i hi => buildScene_layers_getElem? p i hi,
   buildScene_sparks_length p, buildScene_pulse p, buildScene_distort p⟩

/-- Witness for C5 (amended): the first layer of the default blueprint is
built from the draws starting right after the layer-count draw. -/
theorem claim_C5_amended_witness :
    0 < (buildScene []).layers.length ∧
    (buildScene []).layers[0]? =
      some (buildLayer (hueOf []) 0 (rngState (seedOf []) (1 + 8 * 0))).2 :=
  ⟨by have := (layers_length_bounds []).1; omega,
   (claim_C5_amended []).2.1 0 (by have := (layers_length_bounds []).1; omega)⟩

/-- C9: after every call of `drawScene`, the composite (blend) state is back
to normal `source-over`, whatever it was before the call, even though the
spark pass switches to additive `lighter` blending. -/
theorem claim_C9 (bp : SceneBlueprint) (t w h : ℝ) (c0 : CompositeOp) :
    compositeAfter c0 (drawScene bp t w h) = CompositeOp.sourceOver := by
  unfold drawScene compositeAfter
  simp [List.foldl_append, compositeStep]

end VideoGen

namespace VideoGen

lemma drawScene_spark_getElem? (bp : SceneBlueprint) (t w h : ℝ) (i : Nat)
    (sp : SparkSpec) (hsp : bp.sparks[i]? = some sp) :
    (drawScene bp t w h)[3 + bp.layers.length + i]? =
      some (sparkCmd t (w / 2) (h / 2) (max w h) i sp) := by
  have hi : i < bp.sparks.length := by
    by_contra hge
    push_neg at hge
    rw [List.getElem?_eq_none hge] at hsp
    cases hsp
  unfold drawScene
  rw [List.getElem?_append_left (by
    simp [List.length_append, List.enum_length]
    omega : 3 + bp.layers.length + i <
      ([Cmd.clearRect w h,
        Cmd.fillRectLinear w h (bp.background.getD 0 ⟨0, 0, 0⟩)
          (bp.background.getD 1 ⟨0, 0, 0⟩)] ++
        List.map (fun q => layerCmd bp.distort t (w / 2) (h / 2) (max w h)
          (1 + Real.sin (t * (bp.pulse : ℝ)) * 0.05) q.1 q.2) bp.layers.enum ++
        [Cmd.setComposite CompositeOp.lighter] ++
        List.map (fun q => sparkCmd t (w / 2) (h / 2) (max w h) q.1 q.2)
          bp.sparks.enum).length)]
  rw [List.getElem?_append_right (by
    simp [List.length_append, List.enum_length]
    omega)]
  have hlen : ([Cmd.clearRect w h,
      Cmd.fillRectLinear w h (bp.background.getD 0 ⟨0, 0, 0⟩)
        (bp.background.getD 1 ⟨0, 0, 0⟩)] ++
      List.map (fun q => layerCmd bp.distort t (w / 2) (h / 2) (max w h)
        (1 + Real.sin (t * (bp.pulse : ℝ)) * 0.05) q.1 q.2) bp.layers.enum ++
      [Cmd.setComposite CompositeOp.lighter]).length = 3 + bp.layers.length := by
    simp [List.enum_length]
    omega
  rw [hlen, show 3 + bp.layers.length + i - (3 + bp.layers.length) = i from by omega]
  rw [List.getElem?_map]
  have he : bp.sparks.enum[i]? = some (i, sp) := by
    rw [List.getElem?_eq_getElem (by simpa [List.enum_length] using hi),
      List.getElem_enum]
    rw [List.getElem?_eq_getElem hi] at hsp
    rw [Option.some.inj hsp]
  rw [he]
  rfl

/-- The spark glow command described by C8, with the opacity corrected to
0.85: positioned at `center + (cos angle, sin angle) * distance *
maxDimension * 0.45` (angle and distance wobbled as the claim states), outer
radius `size * 12`, inner stop at hue `hueShift + t * 40` with alpha 0.85,
outer stop fully transparent. -/
noncomputable def claimSparkGlow (sp : SparkSpec) (t maxDim cx cy : ℝ)
    (idx : Nat) : Cmd :=
  let sparkTime := t * (sp.drift : ℝ) + (idx : ℝ) * 0.01
  let angle := (sp.angle : ℝ) + Real.sin (sparkTime * 0.5) * 0.5
  let distance := (sp.distance : ℝ) + Real.sin sparkTime * 0.02
  Cmd.fillCircleRadial
    (cx + Real.cos angle * (distance * maxDim * 0.45))
    (cy + Real.sin angle * (distance * maxDim * 0.45))
    ((sp.size : ℝ) * 12)
    ⟨(sp.hueShift : ℝ) + t * 40, 80, 70, 0.85⟩
    ⟨0, 0, 100, 0⟩

/-- The spark glow command exactly as C8 states it: identical to
`claimSparkGlow` except that the inner stop is fully opaque (alpha 1). -/
noncomputable def claimSparkGlowOpaque (sp : SparkSpec) (t maxDim cx cy : ℝ)
    (idx : Nat) : Cmd :=
  let sparkTime := t * (sp.drift : ℝ) + (idx : ℝ) * 0.01
  let angle := (sp.angle : ℝ) + Real.sin (sparkTime * 0.5) * 0.5
  let distance := (sp.distance : ℝ) + Real.sin sparkTime * 0.02
  Cmd.fillCircleRadial
    (cx + Real.cos angle * (distance * maxDim * 0.45))
    (cy + Real.sin angle * (distance * maxDim * 0.45))
    ((sp.size : ℝ) * 12)
    ⟨(sp.hueShift : ℝ) + t * 40, 80, 70, 1⟩
    ⟨0, 0, 100, 0⟩

/-- The alpha of a command's inner radial stop (0 for other commands). -/
noncomputable def innerAlpha : Option Cmd → ℝ
  | some (Cmd.fillCircleRadial _ _ _ inner _) => inner.a
  | _ => 0

/-- A one-spark blueprint used as the concrete input for C8. -/
def bp0 : SceneBlueprint :=
  ⟨[], [⟨0, 0, 1, 1, 0⟩], [⟨0, 68, 12⟩, ⟨0, 80, 22⟩], 0.5, 1⟩

/-- The single spark of `bp0`. -/
def spark0 : SparkSpec := ⟨0, 0, 1, 1, 0⟩

/-- C8 counterexample: at the one-spark blueprint `bp0`, time 0 and a 10x10
surface, the spark command `drawScene` issues does not have a fully opaque
inner stop: its inner alpha is 0.85, not 1. -/
theorem claim_C8_counterexample :
    (drawScene bp0 0 10 10)[3 + bp0.layers.length + 0]? ≠
      some (claimSparkGlowOpaque spark0 0 (max 10 10) (10 / 2) (10 / 2) 0) := by
  intro hEq
  have h1 : (drawScene bp0 0 10 10)[3 + bp0.layers.length + 0]? =
      some (sparkCmd 0 (10 / 2) (10 / 2) (max 10 10) 0 spark0) :=
    drawScene_spark_getElem? bp0 0 10 10 0 spark0 rfl
  rw [h1] at hEq
  have h2 := congrArg innerAlpha hEq
  simp only [sparkCmd, claimSparkGlowOpaque, innerAlpha] at h2
  norm_num at h2

/-- C8 amended: in `drawScene`, for every spark (in blueprint order, with
`sparkTime = t * drift + index * 0.01`, the angle wobbled by
`sin(sparkTime * 0.5) * 0.5` and the distance by `sin(sparkTime) * 0.02`),
the radial glow painted at `center + (cos angle, sin angle) * distance *
maxDimension * 0.45` has outer radius `size * 12`, an inner stop of alpha
0.85 (not fully opaque) at hue `hueShift + t * 40`, and a fully transparent
outer stop. -/
theorem claim_C8_amended (bp : SceneBlueprint) (t w h : ℝ) (i : Nat)
    (sp : SparkSpec) (hsp : bp.sparks[i]? = some sp) :
    (drawScene bp t w h)[3 + bp.layers.length + i]? =
      some (claimSparkGlow sp t (max w h) (w / 2) (h / 2) i) := by
  rw [drawScene_spark_getElem? bp t w h i sp hsp]
  unfold sparkCmd claimSparkGlow
  congr 2
  ring

/-- Witness for C8 (amended) at the one-spark blueprint `bp0`. -/
theorem claim_C8_amended_witness :
    bp0.sparks[0]? = some spark0 ∧
    (drawScene bp0 0 10 10)[3 + bp0.layers.length + 0]? =
      some (claimSparkGlow spark0 0 (max 10 10) (10 / 2) (10 / 2) 0) :=
  ⟨rfl, claim_C8_amended bp0 0 10 10 0 spark0 rfl⟩

/-- C10: for every prompt and every layer index, the layer's color hue is
`⌊layerHueAt * 360⌋` where the hue value `layerHueAt`, computed as
`(hue + r * 0.25 - 0.125 + index * 0.03) % 1` with JS remainder semantics,
lies in the open-below interval `(-0.125, 1)` rather than `[0, 1)`; and for
the concrete prompt `"em"` the first layer's hue value is negative. -/
theorem claim_C10 :
    (∀ (p : List Nat) (i : Nat) (hi : i < (buildScene p).layers.length),
      ((buildScene p).layers.get ⟨i, hi⟩).color.h = ⌊layerHueAt p i * 360⌋ ∧
      -0.125 < layerHueAt p i ∧ layerHueAt p i < 1) ∧
    layerHueAt [101, 109] 0 < 0 := by
  have key : ∀ a : ℚ, -1 < a → a < 0 → jsRemQ a 1 < 0 := by
    intro a h1 h2
    unfold jsRemQ jsTrunc
    rw [div_one, if_neg (by linarith),
      Int.ceil_eq_zero_iff.2 (Set.mem_Ioc.2 ⟨h1, le_of_lt h2⟩)]
    simpa using h2
  constructor
  · intro p i hi
    refine ⟨?_, (layerHueAt_bounds p i).1, (layerHueAt_bounds p i).2⟩
    have h := buildScene_layers_getElem? p i hi
    have h2 : (buildScene p).layers[i]? =
        some ((buildScene p).layers.get ⟨i, hi⟩) := List.getElem?_eq_getElem hi
    have h3 := Option.some.inj (h2.symm.trans h)
    rw [h3]
    rfl
  · have hseed : seedOf [101, 109] = 3240 := by decide
    have hmod : jsMod 3240 360 = 0 := by decide
    have hstate : rngState 3240 (1 + 8 * 0 + 1) = 681894938 := by decide
    unfold layerHueAt layerHue hueOf
    rw [hseed, hmod]
    unfold rngDraw val
    rw [hstate]
    exact key _ (by push_cast; norm_num) (by push_cast; norm_num)

/-- Witness for C10 at the prompt `"em"` and layer 0. -/
theorem claim_C10_witness :
    0 < (buildScene [101, 109]).layers.length ∧
    -0.125 < layerHueAt [101, 109] 0 ∧ layerHueAt [101, 109] 0 < 1 :=
  ⟨by have := (layers_length_bounds [101, 109]).1; omega,
   (claim_C10.1 [101, 109] 0
     (by have := (layers_length_bounds [101, 109]).1; omega)).2⟩

end VideoGen
